import Mathlib

/-!
Verification of the ERT metering-radio decoders (`idm_decode` for the 92-byte
Interval Data Message and `scmp_decode` for the 16-byte Standard Consumption
Message Plus) against their natural-language specification.

The decoders are embedded shallowly: a frame is a byte buffer (`List Nat`,
each entry read through `byteAt`, which makes the `uint8_t` range explicit),
together with the declared bit length of the bitbuffer row.  A decode
invocation returns a `DecodeOutcome`: the C return classification plus the
list of records handed to `decoder_output_data` (empty on every rejection,
a single record on success).

The repository carries two near-duplicate consumption-message decoders; the
specification designates the revised one (model string "SCMplus", checksum
enforced) as the canonical layout, and that is the variant embedded here as
`scmp_decode`.
-/

set_option maxRecDepth 10000

namespace ErtDecoders

/-- Value stored in one field of a `data_t` record: the decoders only use
`DATA_STRING` and `DATA_INT`. -/
inductive DataValue where
  | str : String → DataValue
  | int : Nat → DataValue
deriving DecidableEq

/-- One field of a `data_t` record as assembled by `data_make`: the key, the
pretty-print label, and the value. -/
structure DataField where
  key : String
  label : String
  value : DataValue
deriving DecidableEq

/-- Return classification of a decoder, mirroring `DECODE_ABORT_LENGTH`
(length mismatch), `DECODE_ABORT_EARLY` (preamble mismatch),
`DECODE_FAIL_MIC` (checksum mismatch) and the success return value 1. -/
inductive DecodeRet where
  | abortLength
  | abortEarly
  | failMic
  | success
deriving DecidableEq

/-- Outcome of one decode invocation: the return classification together
with the list of records handed to the output sink `decoder_output_data`
during the invocation. -/
structure DecodeOutcome where
  ret : DecodeRet
  emitted : List (List DataField)
deriving DecidableEq

/-- Reading byte `i` of a bitbuffer row (`b[i]` at type `uint8_t`): the 8-bit
machine-integer range is made explicit by the reduction modulo 256. -/
def byteAt (b : List Nat) (i : Nat) : Nat := b.getD i 0 % 256

/-- The first `n` bytes of a row, as read by the loops that index `b[i]` for
`i` from 0 to `n - 1`. -/
def frameBytes (b : List Nat) (n : Nat) : List Nat := (List.range n).map (byteAt b)

/-- Modelled from the spec: one shift-register step of the shared `crc16`
helper (declared in the decoder headers; its body is not under `src`).  The
16-bit remainder is shifted left one bit and, when the bit shifted out was
set, XORed with the polynomial; the register width is kept explicit by the
reduction modulo 2^16 = 65536. -/
def crcBitStep (poly r : Nat) : Nat :=
  if Nat.testBit r 15 then ((r <<< 1) ^^^ poly) % 65536 else (r <<< 1) % 65536

/-- Modelled from the spec: one byte step of the shared `crc16` helper.  The
message byte is XORed into the high half of the 16-bit remainder and eight
single-bit steps are performed. -/
def crcByteStep (poly r byte : Nat) : Nat :=
  crcBitStep poly (crcBitStep poly (crcBitStep poly (crcBitStep poly
    (crcBitStep poly (crcBitStep poly (crcBitStep poly (crcBitStep poly
      ((r ^^^ (byte <<< 8)) % 65536))))))))

/-- Modelled from the spec: the shared `crc16(message, nBytes, polynomial, init)`
helper, CCITT-family MSB-first CRC-16.  The byte range passed by the caller
is given as a list. -/
def crc16 (message : List Nat) (poly init : Nat) : Nat :=
  message.foldl (crcByteStep poly) init

/-- The literal `hex` table `"0123456789ABCDEF"` used to build the raw-data
dump. -/
def hexChars : List Char :=
  ['0', '1', '2', '3', '4', '5', '6', '7', '8', '9', 'A', 'B', 'C', 'D', 'E', 'F']

/-- One character of the raw-data dump: `hex[n]` for a nibble `n`. -/
def hexDigit (n : Nat) : Char := hexChars.getD n '0'

/-- The hex-dump loop: for every byte, the character for its high nibble
`hex[(b[i] >> 4) & 0xF]` followed by the character for its low nibble
`hex[b[i] & 0x0F]`. -/
def bytesToHex (l : List Nat) : List Char :=
  l.foldr (fun x acc => hexDigit ((x >>> 4) &&& 15) :: (hexDigit (x &&& 15) :: acc)) []

/-- Value of a hex character, for stating the round-trip property of the
raw-data dump: the index of the character in the `hex` table. -/
def hexVal (c : Char) : Nat := hexChars.indexOf c

/-- Decoding a hex dump back to bytes, for stating the round-trip property:
every pair of characters yields one byte, high nibble first. -/
def hexPairsToBytes : List Char → List Nat
  | c1 :: c2 :: rest => (16 * hexVal c1 + hexVal c2) :: hexPairsToBytes rest
  | _ => []

/-- The preamble-matching loop: starting at byte `i`, compare each expected
preamble byte against `b[i]` and stop at the first mismatch. -/
def preambleScan : List Nat → List Nat → Nat → Bool
  | [], _, _ => true
  | p :: ps, b, i => (byteAt b i == p) && preambleScan ps b (i + 1)

/-- The preamble constant of the revised consumption-message decoder:
`{0x16, 0xA3}`, the two sync bytes only (the protocol-id byte `0x1E` is
commented out in the source). -/
def SCMP_PREAMBLE : List Nat := [0x16, 0xA3]

/-- The preamble constant of the interval-message decoder:
`{0x55, 0x55, 0x16, 0xA3, 0x1C, 0x5C, 0xC6}`. -/
def IDM_PREAMBLE : List Nat := [0x55, 0x55, 0x16, 0xA3, 0x1C, 0x5C, 0xC6]

/-- The 12 bytes `&b[2] .. b[13]` over which the consumption-message
checksum is computed (`crc16(&b[2], 12, ...)`). -/
def scmp_payload (b : List Nat) : List Nat :=
  (List.range 12).map (fun i => byteAt b (2 + i))

/-- The received consumption-message checksum: `crc = (b[14] << 8) | b[15]`. -/
def scmp_crc (b : List Nat) : Nat := (byteAt b 14) <<< 8 ||| byteAt b 15

/-- The computed consumption-message checksum:
`calc_crc = crc16(&b[2], 12, 0x1021, 0xFFFF) ^ 0xFFFF`. -/
def scmp_calc_crc (b : List Nat) : Nat :=
  (crc16 (scmp_payload b) 0x1021 0xFFFF) ^^^ 0xFFFF

/-- The record assembled by `data_make` in `scmp_decode`. -/
def scmp_record (b : List Nat) : List DataField :=
  [ ⟨"model", "", DataValue.str "SCMplus"⟩,
    ⟨"scm_protocol", "Protocol ID", DataValue.int (byteAt b 2)⟩,
    ⟨"scm_type", "SCMplus Type", DataValue.int (byteAt b 3)⟩,
    ⟨"id", "Id", DataValue.int
      ((byteAt b 4) <<< 24 ||| (byteAt b 5) <<< 16 ||| (byteAt b 6) <<< 8 ||| byteAt b 7)⟩,
    ⟨"consumption_data", "Consumption", DataValue.int
      ((byteAt b 8) <<< 24 ||| (byteAt b 9) <<< 16 ||| (byteAt b 10) <<< 8 ||| byteAt b 11)⟩,
    ⟨"tamper", "Tamper", DataValue.int ((byteAt b 12) <<< 8 ||| byteAt b 13)⟩,
    ⟨"crc", "Packet CRC", DataValue.int (scmp_crc b)⟩,
    ⟨"calc_crc", "CRC", DataValue.int (scmp_calc_crc b)⟩,
    ⟨"codes", "RAW DATA", DataValue.str (String.mk (bytesToHex (frameBytes b 16)))⟩,
    ⟨"mic", "Integrity", DataValue.str "CRC"⟩ ]

/-- The revised consumption-message decoder `scmp_decode`: length check on
the declared bit count, preamble scan, checksum comparison (rejecting with
`DECODE_FAIL_MIC` on mismatch), then extraction and a single
`decoder_output_data` call. -/
def scmp_decode (bits : Nat) (b : List Nat) : DecodeOutcome :=
  if bits ≠ 16 * 8 then ⟨.abortLength, []⟩
  else if preambleScan SCMP_PREAMBLE b 0 = false then ⟨.abortEarly, []⟩
  else if scmp_crc b ≠ scmp_calc_crc b then ⟨.failMic, []⟩
  else ⟨.success, [scmp_record b]⟩

/-- The record assembled by `data_make` in `idm_decode`. -/
def idm_record (b : List Nat) : List DataField :=
  [ ⟨"model", "", DataValue.str "netIDM"⟩,
    ⟨"id", "Id", DataValue.int
      ((byteAt b 9) <<< 24 ||| (byteAt b 10) <<< 16 ||| (byteAt b 11) <<< 8 ||| byteAt b 12)⟩,
    ⟨"version", "Version", DataValue.int (byteAt b 7)⟩,
    ⟨"idm_type", "IDM Type", DataValue.int (byteAt b 8 &&& 0x0F)⟩,
    ⟨"consumption_interval", "Consumption Interval", DataValue.int (byteAt b 13)⟩,
    ⟨"programming_state", "Programming State", DataValue.int (byteAt b 14)⟩,
    ⟨"generation", "Generation Count", DataValue.int
      ((byteAt b 28) <<< 16 ||| (byteAt b 29) <<< 8 ||| byteAt b 30)⟩,
    ⟨"consumption", "Consumption Count", DataValue.int
      ((byteAt b 25) <<< 16 ||| (byteAt b 26) <<< 8 ||| byteAt b 27)⟩,
    ⟨"net", "Consumption NET", DataValue.int
      ((byteAt b 34) <<< 24 ||| (byteAt b 35) <<< 16 ||| (byteAt b 36) <<< 8 ||| byteAt b 37)⟩,
    ⟨"sn_crc", "Serial Number CRC", DataValue.int ((byteAt b 88) <<< 8 ||| byteAt b 89)⟩,
    ⟨"packet_crc", "Packet CRC", DataValue.int ((byteAt b 90) <<< 8 ||| byteAt b 91)⟩,
    ⟨"codes", "RAW DATA", DataValue.str (String.mk (bytesToHex (frameBytes b 92)))⟩,
    ⟨"mic", "Integrity", DataValue.str "CRC"⟩ ]

/-- The interval-message decoder `idm_decode`: length check on the declared
bit count, preamble scan, then extraction and a single
`decoder_output_data` call.  No checksum is computed or verified (the
source carries a TODO for CRC checking). -/
def idm_decode (bits : Nat) (b : List Nat) : DecodeOutcome :=
  if bits ≠ 92 * 8 then ⟨.abortLength, []⟩
  else if preambleScan IDM_PREAMBLE b 0 = false then ⟨.abortEarly, []⟩
  else ⟨.success, [idm_record b]⟩

/-- A concrete valid consumption-message frame: sync `16 A3`, protocol id
`0x1E`, endpoint type 2, endpoint id `0xAABBCCDD`, consumption `0x1234`,
tamper 0, and the correct trailing checksum `0xA4A8`. -/
def scmpFrameOk : List Nat :=
  [0x16, 0xA3, 0x1E, 0x02, 0xAA, 0xBB, 0xCC, 0xDD, 0x00, 0x00, 0x12, 0x34, 0x00, 0x00, 0xA4, 0xA8]

/-- A concrete interval-message frame of correct length and preamble: the
7 preamble bytes followed by 85 zero bytes. -/
def idmFrameOk : List Nat := IDM_PREAMBLE ++ List.replicate 85 0

/-- A 16-byte all-zero buffer: correct consumption-message length, wrong
preamble already at byte 0. -/
def scmpFrameZero : List Nat := List.replicate 16 0

/-- A 92-byte all-zero buffer: correct interval-message length, wrong
preamble already at byte 0. -/
def idmFrameZero : List Nat := List.replicate 92 0

/-- A 16-byte buffer that agrees with `scmpFrameZero` on byte 0 (the first
mismatching preamble position) but is arbitrary garbage afterwards. -/
def scmpFrameJunk : List Nat := 0 :: List.replicate 15 0x99

/-- A 16-byte frame with correct sync bytes but protocol-id byte `0x77`
instead of the documented `0x1E`. -/
def scmpFrameProto77 : List Nat :=
  [0x16, 0xA3, 0x77, 0, 0, 0, 0, 0, 0, 0, 0, 0, 0, 0, 0, 0]

/-- The valid frame `scmpFrameOk` with its last checksum byte corrupted. -/
def scmpFrameBadCrc : List Nat :=
  [0x16, 0xA3, 0x1E, 0x02, 0xAA, 0xBB, 0xCC, 0xDD, 0x00, 0x00, 0x12, 0x34, 0x00, 0x00, 0xA4, 0xA9]

/-- Difference pattern for a single flipped bit: 12 bytes, all zero except
bit `k` of byte `j`. -/
def flipDelta (j k : Nat) : List Nat :=
  (List.range 12).map (fun i => if i = j then 2 ^ k else 0)

/-- Frame `b` with bit `k` of byte `j` flipped. -/
def scmpFlipBit (b : List Nat) (j k : Nat) : List Nat :=
  b.set j (Nat.xor (byteAt b j) (2 ^ k))

/-- Looking a field up by key in a record, for stating which value a record
carries under a given field name. -/
def recordValue (r : List DataField) (k : String) : Option DataValue :=
  (r.find? (fun f => f.key == k)).map DataField.value

/-! ### Bitwise helper lemmas -/

theorem byteAt_lt (b : List Nat) (i : Nat) : byteAt b i < 256 :=
  Nat.mod_lt _ (by norm_num)

theorem xor_mod_two_pow (a b n : Nat) :
    (a ^^^ b) % 2 ^ n = (a % 2 ^ n) ^^^ (b % 2 ^ n) := by
  apply Nat.eq_of_testBit_eq
  intro i
  by_cases h : i < n <;>
    simp [Nat.testBit_mod_two_pow, Nat.testBit_xor, h]

theorem xor_mod65536 (a b : Nat) :
    (a ^^^ b) % 65536 = (a % 65536) ^^^ (b % 65536) := by
  have h : (65536 : Nat) = 2 ^ 16 := by norm_num
  rw [h]
  exact xor_mod_two_pow a b 16

theorem shiftLeft_xor_distrib (a b k : Nat) :
    (a ^^^ b) <<< k = (a <<< k) ^^^ (b <<< k) := by
  apply Nat.eq_of_testBit_eq
  intro i
  by_cases h : k ≤ i <;>
    simp [Nat.testBit_shiftLeft, Nat.testBit_xor, h]

theorem xor_left_comm (a b c : Nat) : a ^^^ (b ^^^ c) = b ^^^ (a ^^^ c) := by
  rw [← Nat.xor_assoc, Nat.xor_comm a b, Nat.xor_assoc]

theorem xor_xor_swap (a b c d : Nat) :
    (a ^^^ b) ^^^ (c ^^^ d) = (a ^^^ c) ^^^ (b ^^^ d) := by
  rw [Nat.xor_assoc, Nat.xor_assoc, xor_left_comm b c d]

theorem cond_xor_split (t1 t2 : Bool) (p : Nat) :
    cond (t1.xor t2) p 0 = (cond t1 p 0) ^^^ (cond t2 p 0) := by
  cases t1 <;> cases t2 <;> simp

/-- The single-bit CRC step written with the conditional XOR pulled inside. -/
theorem crcBitStep_eq (p r : Nat) :
    crcBitStep p r = ((r <<< 1) ^^^ cond (Nat.testBit r 15) p 0) % 65536 := by
  unfold crcBitStep
  cases h : Nat.testBit r 15 <;> simp [h]

/-- The single-bit CRC step is linear over GF(2). -/
theorem crcBitStep_xor (p x y : Nat) :
    crcBitStep p (x ^^^ y) = crcBitStep p x ^^^ crcBitStep p y := by
  rw [crcBitStep_eq, crcBitStep_eq, crcBitStep_eq, ← xor_mod65536]
  congr 1
  rw [Nat.testBit_xor, cond_xor_split, shiftLeft_xor_distrib, xor_xor_swap]

/-- The per-byte CRC step is linear over GF(2). -/
theorem crcByteStep_xor (p x y b1 b2 : Nat) :
    crcByteStep p (x ^^^ y) (b1 ^^^ b2) = crcByteStep p x b1 ^^^ crcByteStep p y b2 := by
  unfold crcByteStep
  have h : ((x ^^^ y) ^^^ ((b1 ^^^ b2) <<< 8)) % 65536
      = ((x ^^^ (b1 <<< 8)) % 65536) ^^^ ((y ^^^ (b2 <<< 8)) % 65536) := by
    rw [shiftLeft_xor_distrib, xor_xor_swap, xor_mod65536]
  rw [h]
  simp only [crcBitStep_xor]

/-- CRC-16 is linear over GF(2): the CRC of a bytewise XOR of two
equal-length messages, started from the XOR of the two initial registers,
is the XOR of the two CRCs. -/
theorem crc16_xor (p : Nat) (m1 : List Nat) : ∀ (m2 : List Nat) (i1 i2 : Nat),
    m1.length = m2.length →
    crc16 (List.zipWith Nat.xor m1 m2) p (i1 ^^^ i2) = crc16 m1 p i1 ^^^ crc16 m2 p i2 := by
  induction m1 with
  | nil =>
    intro m2 i1 i2 h
    cases m2 with
    | nil => rfl
    | cons b m2 => simp at h
  | cons a m1 ih =>
    intro m2 i1 i2 h
    cases m2 with
    | nil => simp at h
    | cons b m2 =>
      simp only [List.zipWith_cons_cons, crc16, List.foldl_cons] at ih ⊢
      rw [show Nat.xor a b = a ^^^ b from rfl, crcByteStep_xor]
      exact ih m2 _ _ (by simpa using h)

/-- The CRC-16 of every single-bit difference pattern is nonzero: flipping
one payload bit always changes the computed checksum. -/
theorem flipDelta_crc_ne : ∀ j < 12, ∀ k < 8, crc16 (flipDelta j k) 0x1021 0 ≠ 0 := by
  decide

/-! ### Indexing helper lemmas -/

theorem byteAt_set_ne (b : List Nat) (j v i : Nat) (h : i ≠ j) :
    byteAt (b.set j v) i = byteAt b i := by
  unfold byteAt
  rw [List.getD_eq_getElem?_getD, List.getD_eq_getElem?_getD,
    List.getElem?_set_ne (Ne.symm h)]

theorem byteAt_set_eq (b : List Nat) (j v : Nat) (h : j < b.length) :
    byteAt (b.set j v) j = v % 256 := by
  unfold byteAt
  rw [List.getD_eq_getElem?_getD, List.getElem?_set_eq_of_lt v h]
  rfl

/-! ### Disjoint OR as addition -/

theorem or_add_disjoint (x k r : Nat) (hr : r < 2 ^ k) :
    (x <<< k) ||| r = x * 2 ^ k + r := by
  rw [Nat.shiftLeft_eq, Nat.mul_comm x (2 ^ k), ← Nat.mul_add_lt_is_or hr x,
    Nat.mul_comm]

theorem or2_eq (a b : Nat) (hb : b < 256) :
    a <<< 8 ||| b = a * 256 + b := by
  have h := or_add_disjoint a 8 b (by simpa using hb)
  simpa using h

theorem or3_eq (a b c : Nat) (hb : b < 256) (hc : c < 256) :
    a <<< 16 ||| b <<< 8 ||| c = a * 65536 + b * 256 + c := by
  rw [Nat.or_assoc, or2_eq b c hc]
  have hbc : b * 256 + c < 2 ^ 16 := by omega
  have h := or_add_disjoint a 16 (b * 256 + c) hbc
  simp at h
  omega

theorem or4_eq (a b c d : Nat) (hb : b < 256) (hc : c < 256) (hd : d < 256) :
    a <<< 24 ||| b <<< 16 ||| c <<< 8 ||| d
      = a * 16777216 + b * 65536 + c * 256 + d := by
  rw [Nat.or_assoc, Nat.or_assoc, ← Nat.or_assoc (b <<< 16), or3_eq b c d hc hd]
  have hbcd : b * 65536 + c * 256 + d < 2 ^ 24 := by omega
  have h := or_add_disjoint a 24 (b * 65536 + c * 256 + d) hbcd
  simp at h
  omega

/-! ### Preamble-scan lemmas -/

/-- The preamble loop accepts exactly when every preamble byte matches the
corresponding frame byte. -/
theorem preambleScan_iff (pre : List Nat) : ∀ (b : List Nat) (s : Nat),
    preambleScan pre b s = true ↔ ∀ t, t < pre.length → byteAt b (s + t) = pre.getD t 0 := by
  induction pre with
  | nil => intro b s; simp [preambleScan]
  | cons p ps ih =>
    intro b s
    simp only [preambleScan, Bool.and_eq_true, beq_iff_eq, ih b (s + 1)]
    constructor
    · rintro ⟨h0, hrest⟩ t ht
      cases t with
      | zero => simpa using h0
      | succ t' =>
        have := hrest t' (by simpa [Nat.succ_lt_succ_iff] using ht)
        simpa [Nat.add_assoc, Nat.add_comm 1 t'] using this
    · intro hall
      refine ⟨by simpa using hall 0 (by simp), fun t' ht' => ?_⟩
      have := hall (t' + 1) (by simpa [Nat.succ_lt_succ_iff] using ht')
      simpa [Nat.add_assoc, Nat.add_comm 1 t'] using this

/-- Short-circuiting of the preamble loop: when the first mismatch is at
preamble position `m`, the scan rejects any buffer that agrees with `b` on
the bytes up to and including that position — the bytes after the first
mismatching one are never consulted. -/
theorem preambleScan_short_circuit (pre : List Nat) :
    ∀ (b b' : List Nat) (s m : Nat), m < pre.length →
    (∀ j, j < m → byteAt b (s + j) = pre.getD j 0) →
    byteAt b (s + m) ≠ pre.getD m 0 →
    (∀ j, j ≤ m → byteAt b' (s + j) = byteAt b (s + j)) →
    preambleScan pre b' s = false := by
  induction pre with
  | nil => intro b b' s m hm; simp at hm
  | cons p ps ih =>
    intro b b' s m hm hpref hmis hagree
    cases m with
    | zero =>
      have h0 : byteAt b' s = byteAt b s := by simpa using hagree 0 (by omega)
      have hne : byteAt b' s ≠ p := by
        rw [h0]
        simpa using hmis
      simp [preambleScan, hne]
    | succ m' =>
      have h0 : byteAt b' s = p := by
        have ha := hagree 0 (by omega)
        have hb := hpref 0 (by omega)
        simp only [Nat.add_zero] at ha hb
        rw [ha, hb]
        rfl
      have hrest : preambleScan ps b' (s + 1) = false := by
        refine ih b b' (s + 1) m' (by simpa [Nat.succ_lt_succ_iff] using hm)
          (fun j hj => ?_) ?_ (fun j hj => ?_)
        · have := hpref (j + 1) (by omega)
          simpa [Nat.add_assoc, Nat.add_comm 1 j] using this
        · have := hmis
          simpa [Nat.add_assoc, Nat.add_comm 1 m'] using this
        · have := hagree (j + 1) (by omega)
          simpa [Nat.add_assoc, Nat.add_comm 1 j] using this
      simp [preambleScan, h0, hrest]

/-! ### Hex-dump lemmas -/

theorem bytesToHex_cons (x : Nat) (l : List Nat) :
    bytesToHex (x :: l)
      = hexDigit ((x >>> 4) &&& 15) :: hexDigit (x &&& 15) :: bytesToHex l := rfl

theorem bytesToHex_length (l : List Nat) : (bytesToHex l).length = 2 * l.length := by
  induction l with
  | nil => rfl
  | cons x l ih =>
    rw [bytesToHex_cons]
    simp only [List.length_cons, ih, List.length_cons]
    omega

theorem getD_mem_or_eq (l : List Char) (n : Nat) (d : Char) :
    l.getD n d ∈ l ∨ l.getD n d = d := by
  induction l generalizing n with
  | nil => right; simp
  | cons a l ih =>
    cases n with
    | zero => left; simp
    | succ n =>
      rw [List.getD_cons_succ]
      rcases ih n with h | h
      · exact Or.inl (List.mem_cons_of_mem _ h)
      · exact Or.inr h

theorem hexDigit_mem (n : Nat) : hexDigit n ∈ hexChars := by
  unfold hexDigit
  rcases getD_mem_or_eq hexChars n '0' with h | h
  · exact h
  · rw [h]; decide

theorem bytesToHex_mem (l : List Nat) : ∀ c ∈ bytesToHex l, c ∈ hexChars := by
  induction l with
  | nil => simp [bytesToHex]
  | cons x l ih =>
    intro c hc
    rw [bytesToHex_cons] at hc
    simp only [List.mem_cons] at hc
    rcases hc with h | h | h
    · exact h ▸ hexDigit_mem _
    · exact h ▸ hexDigit_mem _
    · exact ih c h

theorem hexVal_hexDigit : ∀ n < 16, hexVal (hexDigit n) = n := by decide

theorem nibble_lt (x : Nat) : x &&& 15 < 16 := by
  have h15 : (15 : Nat) = 2 ^ 4 - 1 := by norm_num
  rw [h15, Nat.and_pow_two_sub_one_eq_mod]
  exact Nat.mod_lt _ (by norm_num)

theorem nibble_recombine (x : Nat) (h : x < 256) :
    16 * ((x >>> 4) &&& 15) + (x &&& 15) = x := by
  have h15 : (15 : Nat) = 2 ^ 4 - 1 := by norm_num
  rw [h15, Nat.and_pow_two_sub_one_eq_mod, Nat.and_pow_two_sub_one_eq_mod,
    Nat.shiftRight_eq_div_pow]
  have h16 : (2 : Nat) ^ 4 = 16 := by norm_num
  rw [h16]
  omega

/-- Round trip of the hex dump: decoding the character pairs back to bytes
reproduces the byte list, provided every entry is an 8-bit value. -/
theorem hexPairsToBytes_bytesToHex (l : List Nat) (h : ∀ x ∈ l, x < 256) :
    hexPairsToBytes (bytesToHex l) = l := by
  induction l with
  | nil => rfl
  | cons x l ih =>
    rw [bytesToHex_cons]
    simp only [hexPairsToBytes]
    have hx : x < 256 := h x (by simp)
    rw [hexVal_hexDigit _ (nibble_lt _), hexVal_hexDigit _ (nibble_lt _),
      nibble_recombine x hx, ih (fun y hy => h y (by simp [hy]))]

theorem frameBytes_mem_lt (b : List Nat) (n : Nat) : ∀ x ∈ frameBytes b n, x < 256 := by
  intro x hx
  unfold frameBytes at hx
  rcases List.mem_map.1 hx with ⟨i, _, rfl⟩
  exact byteAt_lt b i

theorem frameBytes_eq_self (b : List Nat) (n : Nat) (hlen : b.length = n)
    (hb : ∀ x ∈ b, x < 256) : frameBytes b n = b := by
  apply List.ext_getElem
  · simp [frameBytes, hlen]
  · intro i h1 h2
    simp only [frameBytes, List.getElem_map, List.getElem_range]
    unfold byteAt
    rw [List.getD_eq_getElem?_getD, List.getElem?_eq_getElem h2]
    exact Nat.mod_eq_of_lt (hb _ (List.getElem_mem h2))

/-! ### Effect of a single bit flip -/

theorem two_pow_lt_256 (k : Nat) (hk : k < 8) : 2 ^ k < 256 := by
  have h : (2 : Nat) ^ k ≤ 2 ^ 7 := Nat.pow_le_pow_right (by norm_num) (by omega)
  omega

/-- Flipping bit `k` of byte `j` with `2 ≤ j ≤ 13` turns the checksummed
byte range into its bytewise XOR with the single-bit difference pattern. -/
theorem scmp_payload_flip (b : List Nat) (hlen : b.length = 16) (j k : Nat)
    (hj2 : 2 ≤ j) (hj : j ≤ 13) (hk : k < 8) :
    scmp_payload (scmpFlipBit b j k)
      = List.zipWith Nat.xor (scmp_payload b) (flipDelta (j - 2) k) := by
  unfold scmp_payload flipDelta
  rw [List.zipWith_map, List.zipWith_same]
  apply List.map_congr_left
  intro i hi
  have hi12 : i < 12 := List.mem_range.1 hi
  by_cases hij : i = j - 2
  · have hidx : 2 + i = j := by omega
    unfold scmpFlipBit
    rw [hidx, byteAt_set_eq b j _ (by omega)]
    have hxlt : Nat.xor (byteAt b j) (2 ^ k) < 256 := by
      have h256 : (256 : Nat) = 2 ^ 8 := by norm_num
      rw [h256]
      exact Nat.xor_lt_two_pow (by simpa [h256.symm] using byteAt_lt b j)
        (by simpa [h256.symm] using two_pow_lt_256 k hk)
    rw [Nat.mod_eq_of_lt hxlt, if_pos hij]
  · unfold scmpFlipBit
    rw [byteAt_set_ne b j _ (2 + i) (by omega), if_neg hij]
    exact (Nat.xor_zero _).symm

/-- Flipping a payload bit leaves the received checksum bytes unchanged. -/
theorem scmp_crc_flip (b : List Nat) (j k : Nat) (hj : j ≤ 13) :
    scmp_crc (scmpFlipBit b j k) = scmp_crc b := by
  unfold scmp_crc scmpFlipBit
  rw [byteAt_set_ne b j _ 14 (by omega), byteAt_set_ne b j _ 15 (by omega)]

/-- Flipping a payload bit leaves the preamble bytes unchanged. -/
theorem scmp_preamble_flip (b : List Nat) (j k : Nat) (hj2 : 2 ≤ j) :
    preambleScan SCMP_PREAMBLE (scmpFlipBit b j k) 0
      = preambleScan SCMP_PREAMBLE b 0 := by
  simp only [SCMP_PREAMBLE, preambleScan, scmpFlipBit]
  rw [byteAt_set_ne b j _ 0 (by omega), byteAt_set_ne b j _ 1 (by omega)]

/-- Flipping a payload bit changes the computed checksum by the (nonzero)
CRC of the single-bit difference pattern. -/
theorem scmp_calc_crc_flip (b : List Nat) (hlen : b.length = 16) (j k : Nat)
    (hj2 : 2 ≤ j) (hj : j ≤ 13) (hk : k < 8) :
    scmp_calc_crc (scmpFlipBit b j k)
      = scmp_calc_crc b ^^^ crc16 (flipDelta (j - 2) k) 0x1021 0 := by
  unfold scmp_calc_crc
  rw [scmp_payload_flip b hlen j k hj2 hj hk]
  have hlen2 : (scmp_payload b).length = (flipDelta (j - 2) k).length := by
    simp [scmp_payload, flipDelta]
  have h := crc16_xor 0x1021 (scmp_payload b) (flipDelta (j - 2) k) 0xFFFF 0 hlen2
  rw [Nat.xor_zero] at h
  rw [h, Nat.xor_assoc, Nat.xor_comm (crc16 (flipDelta (j - 2) k) 0x1021 0) 0xFFFF,
    ← Nat.xor_assoc]

/-! ### Decoder unfolding lemmas -/

theorem scmp_decode_128 (b : List Nat) :
    scmp_decode 128 b =
      if preambleScan SCMP_PREAMBLE b 0 = false then ⟨.abortEarly, []⟩
      else if scmp_crc b ≠ scmp_calc_crc b then ⟨.failMic, []⟩
      else ⟨.success, [scmp_record b]⟩ := by
  unfold scmp_decode
  rw [if_neg (by norm_num)]

theorem idm_decode_736 (b : List Nat) :
    idm_decode 736 b =
      if preambleScan IDM_PREAMBLE b 0 = false then ⟨.abortEarly, []⟩
      else ⟨.success, [idm_record b]⟩ := by
  unfold idm_decode
  rw [if_neg (by norm_num)]

theorem scmp_ret_success (b : List Nat) (h : (scmp_decode 128 b).ret = .success) :
    preambleScan SCMP_PREAMBLE b 0 = true ∧ scmp_crc b = scmp_calc_crc b := by
  rw [scmp_decode_128] at h
  by_cases h1 : preambleScan SCMP_PREAMBLE b 0 = false
  · rw [if_pos h1] at h
    exact absurd h (by simp)
  · rw [if_neg h1] at h
    by_cases h2 : scmp_crc b ≠ scmp_calc_crc b
    · rw [if_pos h2] at h
      exact absurd h (by simp)
    · exact ⟨by simpa using h1, by simpa using h2⟩

/-! ### Claim theorems -/

/-- Claim C5: for every input whose declared bit length differs from the
message type's fixed frame length times 8 (16×8 for the consumption
message, 92×8 for the interval message), decode returns the length-mismatch
classification immediately, with no record emitted; the outcome coincides
with the outcome on the empty buffer, so no preamble check, checksum
computation or field access touches the buffer. -/
theorem claim_C5_length_mismatch :
    (∀ bits b, bits ≠ 128 →
      scmp_decode bits b = ⟨.abortLength, []⟩ ∧
      scmp_decode bits b = scmp_decode bits []) ∧
    (∀ bits b, bits ≠ 736 →
      idm_decode bits b = ⟨.abortLength, []⟩ ∧
      idm_decode bits b = idm_decode bits []) := by
  refine ⟨fun bits b h => ?_, fun bits b h => ?_⟩
  · have h' : bits ≠ 16 * 8 := by omega
    constructor
    · unfold scmp_decode
      rw [if_pos h']
    · unfold scmp_decode
      rw [if_pos h', if_pos h']
  · have h' : bits ≠ 92 * 8 := by omega
    constructor
    · unfold idm_decode
      rw [if_pos h']
    · unfold idm_decode
      rw [if_pos h', if_pos h']

/-- Witness for C5: a 3-byte buffer declared as 0 bits is rejected for
length by the consumption decoder, and a 129-bit declaration by the
interval decoder. -/
theorem claim_C5_length_mismatch_w :
    scmp_decode 0 [1, 2, 3] = ⟨.abortLength, []⟩ ∧
    idm_decode 129 [] = ⟨.abortLength, []⟩ :=
  ⟨(claim_C5_length_mismatch.1 0 [1, 2, 3] (by decide)).1,
   (claim_C5_length_mismatch.2 129 [] (by decide)).1⟩

/-- Claim C9: on every rejection the decoder hands no record to the output
sink, and on success the sink receives exactly one fully assembled record;
the return classification is always one of the listed values (the interval
decoder has no checksum-mismatch outcome). -/
theorem claim_C9_emission :
    ∀ bits b,
      ((scmp_decode bits b).emitted
        = if (scmp_decode bits b).ret = .success then [scmp_record b] else []) ∧
      ((idm_decode bits b).emitted
        = if (idm_decode bits b).ret = .success then [idm_record b] else []) ∧
      ((scmp_decode bits b).ret = .abortLength ∨ (scmp_decode bits b).ret = .abortEarly ∨
        (scmp_decode bits b).ret = .failMic ∨ (scmp_decode bits b).ret = .success) ∧
      ((idm_decode bits b).ret = .abortLength ∨ (idm_decode bits b).ret = .abortEarly ∨
        (idm_decode bits b).ret = .success) := by
  intro bits b
  unfold scmp_decode idm_decode
  refine ⟨?_, ?_, ?_, ?_⟩ <;> split_ifs <;> simp_all

/-- Claim C6: a frame of correct length whose leading bytes deviate from the
message type's preamble at any position is rejected with the
preamble-mismatch classification; the comparison is byte-by-byte and
short-circuits at the first mismatching byte, so any buffer that agrees up
to and including the first mismatch is rejected no matter what its
remaining bytes hold; and a frame whose leading bytes all equal the
preamble is never rejected for its preamble. -/
theorem claim_C6_preamble :
    (∀ bits b i, bits = 128 → i < 2 → byteAt b i ≠ SCMP_PREAMBLE.getD i 0 →
      scmp_decode bits b = ⟨.abortEarly, []⟩) ∧
    (∀ bits b i, bits = 736 → i < 7 → byteAt b i ≠ IDM_PREAMBLE.getD i 0 →
      idm_decode bits b = ⟨.abortEarly, []⟩) ∧
    (∀ b b' m, m < 2 →
      (∀ j, j < m → byteAt b j = SCMP_PREAMBLE.getD j 0) →
      byteAt b m ≠ SCMP_PREAMBLE.getD m 0 →
      (∀ j, j ≤ m → byteAt b' j = byteAt b j) →
      scmp_decode 128 b' = ⟨.abortEarly, []⟩) ∧
    (∀ b b' m, m < 7 →
      (∀ j, j < m → byteAt b j = IDM_PREAMBLE.getD j 0) →
      byteAt b m ≠ IDM_PREAMBLE.getD m 0 →
      (∀ j, j ≤ m → byteAt b' j = byteAt b j) →
      idm_decode 736 b' = ⟨.abortEarly, []⟩) ∧
    (∀ bits b, bits = 128 → (∀ i, i < 2 → byteAt b i = SCMP_PREAMBLE.getD i 0) →
      (scmp_decode bits b).ret ≠ .abortEarly) ∧
    (∀ bits b, bits = 736 → (∀ i, i < 7 → byteAt b i = IDM_PREAMBLE.getD i 0) →
      (idm_decode bits b).ret ≠ .abortEarly) := by
  refine ⟨?_, ?_, ?_, ?_, ?_, ?_⟩
  · intro bits b i hbits hi hdev
    subst hbits
    have hscan : preambleScan SCMP_PREAMBLE b 0 = false := by
      cases hs : preambleScan SCMP_PREAMBLE b 0 with
      | false => rfl
      | true =>
        have := (preambleScan_iff SCMP_PREAMBLE b 0).1 hs i (by simpa [SCMP_PREAMBLE] using hi)
        simp only [Nat.zero_add] at this
        exact absurd this hdev
    rw [scmp_decode_128, if_pos hscan]
  · intro bits b i hbits hi hdev
    subst hbits
    have hscan : preambleScan IDM_PREAMBLE b 0 = false := by
      cases hs : preambleScan IDM_PREAMBLE b 0 with
      | false => rfl
      | true =>
        have := (preambleScan_iff IDM_PREAMBLE b 0).1 hs i (by simpa [IDM_PREAMBLE] using hi)
        simp only [Nat.zero_add] at this
        exact absurd this hdev
    rw [idm_decode_736, if_pos hscan]
  · intro b b' m hm hpref hmis hagree
    have hscan : preambleScan SCMP_PREAMBLE b' 0 = false := by
      refine preambleScan_short_circuit SCMP_PREAMBLE b b' 0 m
        (by simpa [SCMP_PREAMBLE] using hm) (fun j hj => ?_) ?_ (fun j hj => ?_)
      · simpa using hpref j hj
      · simpa using hmis
      · simpa using hagree j hj
    rw [scmp_decode_128, if_pos hscan]
  · intro b b' m hm hpref hmis hagree
    have hscan : preambleScan IDM_PREAMBLE b' 0 = false := by
      refine preambleScan_short_circuit IDM_PREAMBLE b b' 0 m
        (by simpa [IDM_PREAMBLE] using hm) (fun j hj => ?_) ?_ (fun j hj => ?_)
      · simpa using hpref j hj
      · simpa using hmis
      · simpa using hagree j hj
    rw [idm_decode_736, if_pos hscan]
  · intro bits b hbits hall
    subst hbits
    have hscan : preambleScan SCMP_PREAMBLE b 0 = true := by
      refine (preambleScan_iff SCMP_PREAMBLE b 0).2 fun t ht => ?_
      have ht2 : t < 2 := by simpa [SCMP_PREAMBLE] using ht
      simpa using hall t ht2
    rw [scmp_decode_128, if_neg (by simp [hscan])]
    by_cases hc : scmp_crc b ≠ scmp_calc_crc b
    · rw [if_pos hc]
      simp
    · rw [if_neg hc]
      simp
  · intro bits b hbits hall
    subst hbits
    have hscan : preambleScan IDM_PREAMBLE b 0 = true := by
      refine (preambleScan_iff IDM_PREAMBLE b 0).2 fun t ht => ?_
      have ht7 : t < 7 := by simpa [IDM_PREAMBLE] using ht
      simpa using hall t ht7
    rw [idm_decode_736, if_neg (by simp [hscan])]
    simp

/-- Witness for C6: the all-zero buffers are rejected for preamble, a
buffer agreeing with the mismatching byte 0 but garbage afterwards is also
rejected, and the valid frames are not rejected for preamble. -/
theorem claim_C6_preamble_w :
    scmp_decode 128 scmpFrameZero = ⟨.abortEarly, []⟩ ∧
    idm_decode 736 idmFrameZero = ⟨.abortEarly, []⟩ ∧
    scmp_decode 128 scmpFrameJunk = ⟨.abortEarly, []⟩ ∧
    (scmp_decode 128 scmpFrameOk).ret ≠ .abortEarly ∧
    (idm_decode 736 idmFrameOk).ret ≠ .abortEarly :=
  ⟨claim_C6_preamble.1 128 scmpFrameZero 0 rfl (by decide) (by decide),
   claim_C6_preamble.2.1 736 idmFrameZero 0 rfl (by decide) (by decide),
   claim_C6_preamble.2.2.1 scmpFrameZero scmpFrameJunk 0 (by decide)
     (by intro j hj; omega) (by decide) (by decide),
   claim_C6_preamble.2.2.2.2.1 128 scmpFrameOk rfl (by decide),
   claim_C6_preamble.2.2.2.2.2 736 idmFrameOk rfl (by decide)⟩

/-- Claim C10: the interval preamble constant covers 7 literal bytes, so
the protocol-id, packet-length and Hamming-code bytes are enforced as
constants whenever the preamble check passes, while the consumption
decoder matches only the two sync bytes, so any protocol-id value at byte 2
passes the preamble check. -/
theorem claim_C10_preamble_coverage :
    IDM_PREAMBLE = [0x55, 0x55, 0x16, 0xA3, 0x1C, 0x5C, 0xC6] ∧
    SCMP_PREAMBLE = [0x16, 0xA3] ∧
    (∀ bits b, bits = 736 → (idm_decode bits b).ret ≠ .abortEarly →
      byteAt b 4 = 0x1C ∧ byteAt b 5 = 0x5C ∧ byteAt b 6 = 0xC6) ∧
    (∀ bits b, bits = 128 → byteAt b 0 = 0x16 → byteAt b 1 = 0xA3 →
      (scmp_decode bits b).ret ≠ .abortEarly) := by
  refine ⟨rfl, rfl, ?_, ?_⟩
  · intro bits b hbits hne
    subst hbits
    rw [idm_decode_736] at hne
    have hscan : preambleScan IDM_PREAMBLE b 0 = true := by
      cases hs : preambleScan IDM_PREAMBLE b 0 with
      | true => rfl
      | false =>
        rw [if_pos hs] at hne
        simp at hne
    have hall := (preambleScan_iff IDM_PREAMBLE b 0).1 hscan
    refine ⟨?_, ?_, ?_⟩
    · simpa using hall 4 (by simp [IDM_PREAMBLE])
    · simpa using hall 5 (by simp [IDM_PREAMBLE])
    · simpa using hall 6 (by simp [IDM_PREAMBLE])
  · intro bits b hbits h0 h1
    subst hbits
    have hscan : preambleScan SCMP_PREAMBLE b 0 = true := by
      refine (preambleScan_iff SCMP_PREAMBLE b 0).2 fun t ht => ?_
      have ht2 : t < 2 := by simpa [SCMP_PREAMBLE] using ht
      interval_cases t
      · simpa [SCMP_PREAMBLE] using h0
      · simpa [SCMP_PREAMBLE] using h1
    rw [scmp_decode_128, if_neg (by simp [hscan])]
    by_cases hc : scmp_crc b ≠ scmp_calc_crc b
    · rw [if_pos hc]
      simp
    · rw [if_neg hc]
      simp

/-- Witness for C10: the valid interval frame passes, so its bytes 4..6 are
forced to the constants; and a consumption frame with protocol-id byte
`0x77` still passes the preamble check. -/
theorem claim_C10_preamble_coverage_w :
    (byteAt idmFrameOk 4 = 0x1C ∧ byteAt idmFrameOk 5 = 0x5C ∧ byteAt idmFrameOk 6 = 0xC6) ∧
    (scmp_decode 128 scmpFrameProto77).ret ≠ .abortEarly :=
  ⟨claim_C10_preamble_coverage.2.2.1 736 idmFrameOk rfl (by decide),
   claim_C10_preamble_coverage.2.2.2 128 scmpFrameProto77 rfl (by decide) (by decide)⟩

/-- Claim C2: for every consumption-message frame passing length and
preamble checks, the computed checksum equals CRC-16 with polynomial
0x1021, initial register 0xFFFF and final XOR mask 0xFFFF over the 12
bytes [2,14), the received checksum is the big-endian 16-bit integer at
bytes 14..15, and the decoder fails with the checksum-mismatch
classification exactly when the two differ. -/
theorem claim_C2_checksum_params :
    ∀ bits b, bits = 128 → preambleScan SCMP_PREAMBLE b 0 = true →
      scmp_calc_crc b
        = Nat.xor (crc16 ((List.range 12).map (fun i => byteAt b (2 + i))) 0x1021 0xFFFF) 0xFFFF ∧
      scmp_crc b = byteAt b 14 * 256 + byteAt b 15 ∧
      ((scmp_decode bits b).ret = .failMic ↔ scmp_crc b ≠ scmp_calc_crc b) ∧
      ((scmp_decode bits b).ret = .success ↔ scmp_crc b = scmp_calc_crc b) := by
  intro bits b hbits hscan
  subst hbits
  refine ⟨rfl, ?_, ?_, ?_⟩
  · unfold scmp_crc
    exact or2_eq _ _ (byteAt_lt b 15)
  · rw [scmp_decode_128, if_neg (by simp [hscan])]
    by_cases hc : scmp_crc b ≠ scmp_calc_crc b
    · rw [if_pos hc]
      simpa using hc
    · rw [if_neg hc]
      simpa using hc
  · rw [scmp_decode_128, if_neg (by simp [hscan])]
    by_cases hc : scmp_crc b ≠ scmp_calc_crc b
    · rw [if_pos hc]
      simpa using hc
    · rw [if_neg hc]
      simpa using not_not.1 hc

/-- Witness for C2: the valid frame decodes successfully and its computed
checksum 0xA4A8 matches the received bytes. -/
theorem claim_C2_checksum_params_w :
    scmp_crc scmpFrameOk = byteAt scmpFrameOk 14 * 256 + byteAt scmpFrameOk 15 ∧
    ((scmp_decode 128 scmpFrameOk).ret = .success ↔
      scmp_crc scmpFrameOk = scmp_calc_crc scmpFrameOk) :=
  ⟨(claim_C2_checksum_params 128 scmpFrameOk rfl (by decide)).2.1,
   (claim_C2_checksum_params 128 scmpFrameOk rfl (by decide)).2.2.2⟩

/-- Claim C3: every extracted field is the integer assembled
most-significant-byte-first from the bytes at the documented offset and
width (with the interval endpoint type masked to the low nibble of byte 8);
in particular endpoint-id bytes 01 02 03 04 yield 0x01020304. -/
theorem claim_C3_field_extraction :
    ∀ b : List Nat,
      recordValue (scmp_record b) "scm_protocol" = some (.int (byteAt b 2)) ∧
      recordValue (scmp_record b) "scm_type" = some (.int (byteAt b 3)) ∧
      recordValue (scmp_record b) "id" = some (.int
        (byteAt b 4 * 16777216 + byteAt b 5 * 65536 + byteAt b 6 * 256 + byteAt b 7)) ∧
      recordValue (scmp_record b) "consumption_data" = some (.int
        (byteAt b 8 * 16777216 + byteAt b 9 * 65536 + byteAt b 10 * 256 + byteAt b 11)) ∧
      recordValue (scmp_record b) "tamper" = some (.int (byteAt b 12 * 256 + byteAt b 13)) ∧
      recordValue (scmp_record b) "crc" = some (.int (byteAt b 14 * 256 + byteAt b 15)) ∧
      recordValue (idm_record b) "version" = some (.int (byteAt b 7)) ∧
      recordValue (idm_record b) "idm_type" = some (.int (byteAt b 8 % 16)) ∧
      recordValue (idm_record b) "id" = some (.int
        (byteAt b 9 * 16777216 + byteAt b 10 * 65536 + byteAt b 11 * 256 + byteAt b 12)) ∧
      recordValue (idm_record b) "consumption_interval" = some (.int (byteAt b 13)) ∧
      recordValue (idm_record b) "programming_state" = some (.int (byteAt b 14)) ∧
      recordValue (idm_record b) "generation" = some (.int
        (byteAt b 28 * 65536 + byteAt b 29 * 256 + byteAt b 30)) ∧
      recordValue (idm_record b) "consumption" = some (.int
        (byteAt b 25 * 65536 + byteAt b 26 * 256 + byteAt b 27)) ∧
      recordValue (idm_record b) "net" = some (.int
        (byteAt b 34 * 16777216 + byteAt b 35 * 65536 + byteAt b 36 * 256 + byteAt b 37)) ∧
      recordValue (idm_record b) "sn_crc" = some (.int (byteAt b 88 * 256 + byteAt b 89)) ∧
      recordValue (idm_record b) "packet_crc" = some (.int (byteAt b 90 * 256 + byteAt b 91)) ∧
      recordValue (scmp_record
          [0x16, 0xA3, 0x1E, 0x00, 0x01, 0x02, 0x03, 0x04, 0, 0, 0, 0, 0, 0, 0, 0]) "id"
        = some (.int 0x01020304) := by
  intro b
  refine ⟨rfl, rfl, ?_, ?_, ?_, ?_, rfl, ?_, ?_, rfl, rfl, ?_, ?_, ?_, ?_, ?_, by decide⟩
  · rw [show recordValue (scmp_record b) "id" = some (DataValue.int
      ((byteAt b 4) <<< 24 ||| (byteAt b 5) <<< 16 ||| (byteAt b 6) <<< 8 ||| byteAt b 7)) from rfl,
      or4_eq _ _ _ _ (byteAt_lt b 5) (byteAt_lt b 6) (byteAt_lt b 7)]
  · rw [show recordValue (scmp_record b) "consumption_data" = some (DataValue.int
      ((byteAt b 8) <<< 24 ||| (byteAt b 9) <<< 16 ||| (byteAt b 10) <<< 8 ||| byteAt b 11)) from rfl,
      or4_eq _ _ _ _ (byteAt_lt b 9) (byteAt_lt b 10) (byteAt_lt b 11)]
  · rw [show recordValue (scmp_record b) "tamper" = some (DataValue.int
      ((byteAt b 12) <<< 8 ||| byteAt b 13)) from rfl,
      or2_eq _ _ (byteAt_lt b 13)]
  · rw [show recordValue (scmp_record b) "crc" = some (DataValue.int
      ((byteAt b 14) <<< 8 ||| byteAt b 15)) from rfl,
      or2_eq _ _ (byteAt_lt b 15)]
  · rw [show recordValue (idm_record b) "idm_type"
      = some (DataValue.int (byteAt b 8 &&& 0x0F)) from rfl]
    have h15 : (0x0F : Nat) = 2 ^ 4 - 1 := by norm_num
    rw [h15, Nat.and_pow_two_sub_one_eq_mod]
  · rw [show recordValue (idm_record b) "id" = some (DataValue.int
      ((byteAt b 9) <<< 24 ||| (byteAt b 10) <<< 16 ||| (byteAt b 11) <<< 8 ||| byteAt b 12)) from rfl,
      or4_eq _ _ _ _ (byteAt_lt b 10) (byteAt_lt b 11) (byteAt_lt b 12)]
  · rw [show recordValue (idm_record b) "generation" = some (DataValue.int
      ((byteAt b 28) <<< 16 ||| (byteAt b 29) <<< 8 ||| byteAt b 30)) from rfl,
      or3_eq _ _ _ (byteAt_lt b 29) (byteAt_lt b 30)]
  · rw [show recordValue (idm_record b) "consumption" = some (DataValue.int
      ((byteAt b 25) <<< 16 ||| (byteAt b 26) <<< 8 ||| byteAt b 27)) from rfl,
      or3_eq _ _ _ (byteAt_lt b 26) (byteAt_lt b 27)]
  · rw [show recordValue (idm_record b) "net" = some (DataValue.int
      ((byteAt b 34) <<< 24 ||| (byteAt b 35) <<< 16 ||| (byteAt b 36) <<< 8 ||| byteAt b 37)) from rfl,
      or4_eq _ _ _ _ (byteAt_lt b 35) (byteAt_lt b 36) (byteAt_lt b 37)]
  · rw [show recordValue (idm_record b) "sn_crc" = some (DataValue.int
      ((byteAt b 88) <<< 8 ||| byteAt b 89)) from rfl,
      or2_eq _ _ (byteAt_lt b 89)]
  · rw [show recordValue (idm_record b) "packet_crc" = some (DataValue.int
      ((byteAt b 90) <<< 8 ||| byteAt b 91)) from rfl,
      or2_eq _ _ (byteAt_lt b 91)]

/-- Claim C8: the hex dump of a frame is exactly 2×frame_length characters
(32 for the consumption message, 184 for the interval message), every
character comes from the uppercase hex table, decoding the character pairs
back to bytes reproduces the dumped byte sequence, the dump is the value of
the codes field of the record, and for a buffer of the exact frame length
with 8-bit entries the round trip reproduces the raw input buffer
byte-for-byte. -/
theorem claim_C8_hex_dump :
    ∀ b : List Nat,
      (bytesToHex (frameBytes b 16)).length = 32 ∧
      (bytesToHex (frameBytes b 92)).length = 184 ∧
      (∀ c ∈ bytesToHex (frameBytes b 16), c ∈ hexChars) ∧
      (∀ c ∈ bytesToHex (frameBytes b 92), c ∈ hexChars) ∧
      hexPairsToBytes (bytesToHex (frameBytes b 16)) = frameBytes b 16 ∧
      hexPairsToBytes (bytesToHex (frameBytes b 92)) = frameBytes b 92 ∧
      recordValue (scmp_record b) "codes"
        = some (.str (String.mk (bytesToHex (frameBytes b 16)))) ∧
      recordValue (idm_record b) "codes"
        = some (.str (String.mk (bytesToHex (frameBytes b 92)))) ∧
      (b.length = 16 → (∀ x ∈ b, x < 256) →
        hexPairsToBytes (bytesToHex (frameBytes b 16)) = b) ∧
      (b.length = 92 → (∀ x ∈ b, x < 256) →
        hexPairsToBytes (bytesToHex (frameBytes b 92)) = b) := by
  intro b
  refine ⟨?_, ?_, bytesToHex_mem _, bytesToHex_mem _,
    hexPairsToBytes_bytesToHex _ (frameBytes_mem_lt b 16),
    hexPairsToBytes_bytesToHex _ (frameBytes_mem_lt b 92), rfl, rfl, ?_, ?_⟩
  · rw [bytesToHex_length]
    simp [frameBytes]
  · rw [bytesToHex_length]
    simp [frameBytes]
  · intro hlen hb
    rw [hexPairsToBytes_bytesToHex _ (frameBytes_mem_lt b 16),
      frameBytes_eq_self b 16 hlen hb]
  · intro hlen hb
    rw [hexPairsToBytes_bytesToHex _ (frameBytes_mem_lt b 92),
      frameBytes_eq_self b 92 hlen hb]

/-- Witness for C8: the round trip reproduces the concrete valid frames
byte-for-byte. -/
theorem claim_C8_hex_dump_w :
    hexPairsToBytes (bytesToHex (frameBytes scmpFrameOk 16)) = scmpFrameOk ∧
    hexPairsToBytes (bytesToHex (frameBytes idmFrameOk 92)) = idmFrameOk :=
  ⟨(claim_C8_hex_dump scmpFrameOk).2.2.2.2.2.2.2.2.1 (by decide) (by decide),
   (claim_C8_hex_dump idmFrameOk).2.2.2.2.2.2.2.2.2 (by decide) (by decide)⟩

/-- Claim C7: a successful consumption-message decode emits exactly the
fields model, scm_protocol, scm_type, id, consumption_data, tamper, crc,
calc_crc, codes, mic in that order, with model "SCMplus" and mic "CRC"; a
successful interval-message decode emits exactly model, id, version,
idm_type, consumption_interval, programming_state, generation, consumption,
net, sn_crc, packet_crc, codes, mic in that order, with model "netIDM" and
mic "CRC". -/
theorem claim_C7_record_contract :
    ∀ bits b,
      ((scmp_decode bits b).ret = .success →
        (scmp_decode bits b).emitted.map (fun r => r.map DataField.key)
          = [["model", "scm_protocol", "scm_type", "id", "consumption_data",
              "tamper", "crc", "calc_crc", "codes", "mic"]]) ∧
      recordValue (scmp_record b) "model" = some (.str "SCMplus") ∧
      recordValue (scmp_record b) "mic" = some (.str "CRC") ∧
      ((idm_decode bits b).ret = .success →
        (idm_decode bits b).emitted.map (fun r => r.map DataField.key)
          = [["model", "id", "version", "idm_type", "consumption_interval",
              "programming_state", "generation", "consumption", "net",
              "sn_crc", "packet_crc", "codes", "mic"]]) ∧
      recordValue (idm_record b) "model" = some (.str "netIDM") ∧
      recordValue (idm_record b) "mic" = some (.str "CRC") := by
  intro bits b
  refine ⟨?_, rfl, rfl, ?_, rfl, rfl⟩
  · intro h
    unfold scmp_decode at h ⊢
    split_ifs at h ⊢ with h1 h2 h3
    rfl
  · intro h
    unfold idm_decode at h ⊢
    split_ifs at h ⊢ with h1 h2
    rfl

/-- Witness for C7: the concrete valid frames emit exactly the advertised
field lists. -/
theorem claim_C7_record_contract_w :
    (scmp_decode 128 scmpFrameOk).emitted.map (fun r => r.map DataField.key)
      = [["model", "scm_protocol", "scm_type", "id", "consumption_data",
          "tamper", "crc", "calc_crc", "codes", "mic"]] ∧
    (idm_decode 736 idmFrameOk).emitted.map (fun r => r.map DataField.key)
      = [["model", "id", "version", "idm_type", "consumption_interval",
          "programming_state", "generation", "consumption", "net",
          "sn_crc", "packet_crc", "codes", "mic"]] :=
  ⟨(claim_C7_record_contract 128 scmpFrameOk).1 (by decide),
   (claim_C7_record_contract 736 idmFrameOk).2.2.2.1 (by decide)⟩

/-- Claim C1: whenever the computed and received checksums of a
consumption-message frame of correct length and preamble differ, decode
fails with the checksum-mismatch classification and emits no record; and
starting from a frame that decodes successfully (so its trailing checksum
bytes are correct), flipping any single bit of any payload byte (bytes 2
through 13) makes the two values differ and decode fails with the
checksum-mismatch classification. -/
theorem claim_C1_checksum_rejects :
    (∀ bits b, bits = 128 → preambleScan SCMP_PREAMBLE b 0 = true →
      scmp_crc b ≠ scmp_calc_crc b → scmp_decode bits b = ⟨.failMic, []⟩) ∧
    (∀ b j k, b.length = 16 → 2 ≤ j → j ≤ 13 → k < 8 →
      (scmp_decode 128 b).ret = .success →
      scmp_crc (scmpFlipBit b j k) ≠ scmp_calc_crc (scmpFlipBit b j k) ∧
      scmp_decode 128 (scmpFlipBit b j k) = ⟨.failMic, []⟩) := by
  constructor
  · intro bits b hbits hscan hne
    subst hbits
    rw [scmp_decode_128, if_neg (by simp [hscan]), if_pos hne]
  · intro b j k hlen hj2 hj hk hsucc
    obtain ⟨hscan, hcrc⟩ := scmp_ret_success b hsucc
    have hd := flipDelta_crc_ne (j - 2) (by omega) k hk
    have hcalc := scmp_calc_crc_flip b hlen j k hj2 hj hk
    have hrecv := scmp_crc_flip b j k hj
    have hne : scmp_crc (scmpFlipBit b j k) ≠ scmp_calc_crc (scmpFlipBit b j k) := by
      rw [hrecv, hcalc, hcrc]
      intro hbad
      have h0 := Nat.xor_cancel_left (scmp_calc_crc b)
        (crc16 (flipDelta (j - 2) k) 0x1021 0)
      rw [← hbad, Nat.xor_self] at h0
      exact hd h0.symm
    refine ⟨hne, ?_⟩
    have hscan2 : preambleScan SCMP_PREAMBLE (scmpFlipBit b j k) 0 = true := by
      rw [scmp_preamble_flip b j k hj2]
      exact hscan
    rw [scmp_decode_128, if_neg (by simp [hscan2]), if_pos hne]

/-- Witness for C1: the valid frame with a corrupted checksum byte is
rejected, and flipping the lowest bit of byte 2 or the highest bit of
byte 13 of the valid frame is rejected with the checksum-mismatch
classification. -/
theorem claim_C1_checksum_rejects_w :
    scmp_decode 128 scmpFrameBadCrc = ⟨.failMic, []⟩ ∧
    scmp_decode 128 (scmpFlipBit scmpFrameOk 2 0) = ⟨.failMic, []⟩ ∧
    scmp_decode 128 (scmpFlipBit scmpFrameOk 13 7) = ⟨.failMic, []⟩ :=
  ⟨claim_C1_checksum_rejects.1 128 scmpFrameBadCrc rfl (by decide) (by decide),
   (claim_C1_checksum_rejects.2 scmpFrameOk 2 0 (by decide) (by decide)
     (by decide) (by decide) (by decide)).2,
   (claim_C1_checksum_rejects.2 scmpFrameOk 13 7 (by decide) (by decide)
     (by decide) (by decide) (by decide)).2⟩

/-- Counterexample to claim C4: at a concrete interval-message frame of
correct length and preamble, decode succeeds and the output record carries
exactly the 13 advertised fields; no computed-checksum field is among them,
and the checksum-named fields hold the received bytes of the frame (zero
here), not any computed value — the interval decoder runs no checksum
computation at all. -/
theorem claim_C4_no_computed_checksum_cx :
    (idm_decode 736 idmFrameOk).ret = .success ∧
    (idm_decode 736 idmFrameOk).emitted.map (fun r => r.map DataField.key)
      = [["model", "id", "version", "idm_type", "consumption_interval",
          "programming_state", "generation", "consumption", "net",
          "sn_crc", "packet_crc", "codes", "mic"]] ∧
    (∀ f ∈ (idm_decode 736 idmFrameOk).emitted.headD [], f.key ≠ "calc_crc") ∧
    recordValue (idm_record idmFrameOk) "sn_crc" = some (.int 0) ∧
    recordValue (idm_record idmFrameOk) "packet_crc" = some (.int 0) := by
  refine ⟨by decide, by decide, by decide, by decide, by decide⟩

/-- Claim C4 (amended): the interval decoder performs no checksum
computation; on every frame passing length and preamble checks it emits the
record carrying the received serial-number and packet checksums, read
big-endian from bytes 88-89 and 90-91, and no computed-checksum field. -/
theorem claim_C4_received_checksums_amended :
    ∀ bits b, bits = 736 → preambleScan IDM_PREAMBLE b 0 = true →
      idm_decode bits b = ⟨.success, [idm_record b]⟩ ∧
      recordValue (idm_record b) "sn_crc"
        = some (.int (byteAt b 88 * 256 + byteAt b 89)) ∧
      recordValue (idm_record b) "packet_crc"
        = some (.int (byteAt b 90 * 256 + byteAt b 91)) ∧
      (∀ f ∈ idm_record b, f.key ≠ "calc_crc") := by
  intro bits b hbits hscan
  subst hbits
  refine ⟨?_, ?_, ?_, ?_⟩
  · rw [idm_decode_736, if_neg (by simp [hscan])]
  · rw [show recordValue (idm_record b) "sn_crc" = some (DataValue.int
      ((byteAt b 88) <<< 8 ||| byteAt b 89)) from rfl,
      or2_eq _ _ (byteAt_lt b 89)]
  · rw [show recordValue (idm_record b) "packet_crc" = some (DataValue.int
      ((byteAt b 90) <<< 8 ||| byteAt b 91)) from rfl,
      or2_eq _ _ (byteAt_lt b 91)]
  · intro f hf
    simp only [idm_record, List.mem_cons, List.not_mem_nil, or_false] at hf
    rcases hf with h|h|h|h|h|h|h|h|h|h|h|h|h <;> subst h <;> simp

/-- Witness for the amended C4: the concrete valid interval frame emits its
record, whose serial-number checksum field holds the received bytes. -/
theorem claim_C4_received_checksums_amended_w :
    idm_decode 736 idmFrameOk = ⟨.success, [idm_record idmFrameOk]⟩ ∧
    recordValue (idm_record idmFrameOk) "sn_crc"
      = some (.int (byteAt idmFrameOk 88 * 256 + byteAt idmFrameOk 89)) :=
  ⟨(claim_C4_received_checksums_amended 736 idmFrameOk rfl (by decide)).1,
   (claim_C4_received_checksums_amended 736 idmFrameOk rfl (by decide)).2.1⟩

end ErtDecoders
